import Mathlib

/-!
Verification of the `api` handlers package (handlers.go) of the
music-explorer repository, a server-rendered front-end for a band/artist
tracker REST API.

Strings are modelled as lists of characters (`Str`), Go's string helpers
(`strings.Contains`, `strings.ToLower`, `strings.HasPrefix`,
`strings.Split`, `strconv.Atoi`, `strconv.Itoa`) as executable functions
over `Str`.  `strings.ToLower` is modelled on the ASCII fragment via
`Char.toLower`; every concrete input used below is ASCII.

The upstream REST API and the HTML templating engine are external
collaborators per the specification.  The upstream is an oracle
(`Upstream`) giving each fetch's outcome (`none` models a non-nil Go
error); templating is a black box that always succeeds, so a rendered
page is modelled by the view-model value handed to the template.
Each handler returns its `Response` together with the ordered list of
upstream fetches it performed.
-/

/-- Go strings, modelled as lists of characters. -/
abbrev Str := List Char

/-- `strings.ToLower` (ASCII fragment). -/
def goToLower (s : Str) : Str := s.map Char.toLower

/-- `strings.Contains s sub`: `sub` occurs as a contiguous substring of `s`.
`s.tails` includes `s` itself and the empty suffix, so
`goContains s []` is `true`, matching Go. -/
def goContains (s sub : Str) : Bool :=
  s.tails.any (fun t => List.isPrefixOf sub t)

/-- `strings.HasPrefix s p` (argument order: pattern first). -/
def goHasPrefixB (p s : Str) : Bool := List.isPrefixOf p s

/-- `strings.Split s sep` for a one-character separator: splits at every
occurrence, keeping empty segments, and always returns at least one
segment. -/
def goSplit (sep : Char) : Str → List Str
  | [] => [[]]
  | c :: rest =>
    let r := goSplit sep rest
    if c = sep then [] :: r
    else
      match r with
      | h :: t => (c :: h) :: t
      | [] => [[c]]

/-- Decimal digits of a string, `none` on an empty string or a non-digit
character (helper for `strconv.Atoi`). -/
def digitsToNatAux : Str → Nat → Option Nat
  | [], acc => some acc
  | c :: t, acc =>
    if c.isDigit then digitsToNatAux t (acc * 10 + (c.toNat - 48)) else none

/-- All-digit parse of a nonempty string. -/
def digitsToNat : Str → Option Nat
  | [] => none
  | cs => digitsToNatAux cs 0

/-- `strconv.Atoi`: optional leading sign, then one or more decimal
digits; `none` (a non-nil error) on an empty string, a stray character,
or a value outside the 64-bit signed range. -/
def atoi (s : Str) : Option Int :=
  match s with
  | [] => none
  | c :: rest =>
    let signed : Bool × Str :=
      if c = '-' then (true, rest)
      else if c = '+' then (false, rest)
      else (false, s)
    match digitsToNat signed.2 with
    | none => none
    | some n =>
      let v : Int := if signed.1 then -(n : Int) else (n : Int)
      if -(2 ^ 63) ≤ v ∧ v ≤ 2 ^ 63 - 1 then some v else none

/-- Decimal digits of a natural number, with fuel (`fuel = n + 1`
always suffices since `n / 10 < n` for `n ≥ 10`). -/
def natDigitsAux : Nat → Nat → Str
  | 0, _ => []
  | _ + 1, n =>
    if h : n < 10 then [Char.ofNat (48 + n)]
    else natDigitsAux n (n / 10) ++ [Char.ofNat (48 + n % 10)]

/-- `strconv.Itoa`: decimal representation, with a leading minus sign for
negative values. -/
def itoa (i : Int) : Str :=
  if i < 0 then '-' :: natDigitsAux (i.natAbs + 1) i.natAbs
  else natDigitsAux (i.natAbs + 1) i.natAbs

/-- The upstream `Artist` record, as consumed by handlers.go: the fields
read there are `ID`, `Name`, `Members`, `CreationDate`, `FirstAlbum`,
`Locations` and `ConcertDates` (the latter two flattened strings on this
struct). -/
structure Artist where
  ID : Int
  Name : Str
  Members : List Str
  CreationDate : Int
  FirstAlbum : Str
  Locations : Str
  ConcertDates : Str
deriving DecidableEq

/-- Upstream dates record; handlers.go passes it through opaquely. -/
structure DateEntry where
  raw : Str
deriving DecidableEq

/-- Upstream locations record; handlers.go passes it through opaquely. -/
structure Location where
  raw : Str
deriving DecidableEq

/-- Upstream relations record; handlers.go passes it through opaquely. -/
structure Relation where
  raw : Str
deriving DecidableEq

/-- `SearchResult` from handlers.go; the Go field `Type` is spelt `type` here
because `Type` is a Lean keyword. -/
structure SearchResult where
  Name : Str
  type : Str
deriving DecidableEq

/-- `ArtistData` from handlers.go: the view model handed to the artist
template.  `CreationDate` and `ConcertDates` are left at their Go zero
values by `ArtistHandler`. -/
structure ArtistData where
  Artist : Artist
  Dates : DateEntry
  Locations : Location
  Relations : Relation
  Section : Str
  CreationDate : Int
  ConcertDates : Str
deriving DecidableEq

/-- An incoming HTTP request: method, URL path, and the query string as
an association list (first binding wins, as in `url.Values.Get`). -/
structure Request where
  method : Str
  path : Str
  query : List (Str × Str)
deriving DecidableEq

/-- `r.URL.Query().Get key`: first value bound to `key`, or the empty
string when the key is absent. -/
def getQuery (r : Request) (key : Str) : Str :=
  match r.query.find? (fun p => p.1 == key) with
  | some p => p.2
  | none => []

/-- One upstream GET request, tagged by endpoint kind and artist id. -/
inductive Fetch where
  | artists : Fetch
  | artist : Str → Fetch
  | dates : Str → Fetch
  | locations : Str → Fetch
  | relations : Str → Fetch
deriving DecidableEq

/-- Outcomes of the upstream fetches (`ReadArtists`, `ReadArtist`,
`ReadDate`, `ReadLocation`, `ReadRelations`); `none` models a non-nil Go
error. -/
structure Upstream where
  ReadArtists : Option (List Artist)
  ReadArtist : Str → Option Artist
  ReadDate : Str → Option DateEntry
  ReadLocation : Str → Option Location
  ReadRelations : Str → Option Relation

/-- A handler's observable output: an error page rendered by
`renderError` (status code and message), or the successful page,
modelled by the value handed to the template or JSON encoder. -/
inductive Response where
  | errorPage : Nat → Str → Response
  | homePage : Response
  | artistsPage : List Artist → Response
  | jsonArtists : List Artist → Response
  | jsonSearch : List SearchResult → Response
  | artistPage : ArtistData → Response
deriving DecidableEq

/-- HTTP status of a response (200 for a successfully rendered page). -/
def respStatus : Response → Nat
  | .errorPage s _ => s
  | _ => 200

def sGET : Str := "GET".data
def sRoot : Str := "/".data
def sWrongMethod : Str := "Wrong method".data
def sHomeUnavailable : Str := "The Page you're trying to acess is unavailable".data
def sPageUnavailable : Str := "The Page you're trying to access is unavailable".data
def sArtists : Str := "/artists".data
def sArtistsSlash : Str := "/artists/".data
def sErrFetchingArtists : Str := "Error fetching artists".data
def sQ : Str := "q".data
def sQueryKey : Str := "query".data
def sQueryMissing : Str := "Query parameter is missing".data
def sErrFetchingArtistData : Str := "Error fetching artist data".data
def sFirstAlbumDate : Str := "first album date".data
def sCreationDate : Str := "creation date".data
def sArtistSlash : Str := "/artist/".data
def sSection : Str := "section".data
def sLocations : Str := "locations".data
def sDates : Str := "dates".data
def sRelations : Str := "relations".data
def sAll : Str := "all".data
def sSectionUnavailable : Str := "The section you're trying to access is unavailable".data
def sArtistIdNotFound : Str := "Artist ID not found".data
def sErrFetchingDates : Str := "Error fetching dates".data
def sErrFetchingLocations : Str := "Error fetching locations".data
def sErrFetchingRelations : Str := "Error fetching relations".data

/-- `SearchHandler`'s result accumulation (lines 73-91 of handlers.go):
for each artist in order, append a "first album date" hit when the
lower-cased `FirstAlbum` contains the lower-cased query, then a
"creation date" hit when `strconv.Itoa CreationDate` contains it. -/
def searchResultsLoop (lowerQuery : Str) : List Artist → List SearchResult
  | [] => []
  | a :: rest =>
    (if goContains (goToLower a.FirstAlbum) lowerQuery then
      [{ Name := a.Name, type := sFirstAlbumDate }] else []) ++
    (if goContains (itoa a.CreationDate) lowerQuery then
      [{ Name := a.Name, type := sCreationDate }] else []) ++
    searchResultsLoop lowerQuery rest

/-- `SearchHandler` (handlers.go lines 52-95). -/
def SearchHandler (up : Upstream) (r : Request) : Response × List Fetch :=
  if r.method ≠ sGET then (.errorPage 405 sWrongMethod, [])
  else if getQuery r sQueryKey = [] then (.errorPage 400 sQueryMissing, [])
  else
    match up.ReadArtists with
    | none => (.errorPage 500 sErrFetchingArtistData, [.artists])
    | some artists =>
      (.jsonSearch
        (searchResultsLoop (goToLower (getQuery r sQueryKey)) artists),
       [.artists])

/-- `HomeHandler` (handlers.go lines 122-145): path is checked before
the method.  Template loading and execution are black-boxed as
succeeding. -/
def HomeHandler (r : Request) : Response :=
  if r.path ≠ sRoot then .errorPage 404 sHomeUnavailable
  else if r.method ≠ sGET then .errorPage 405 sWrongMethod
  else .homePage

/-- One iteration of the `searchArtists` loop body (handlers.go lines
202-233) for one artist, with the already lower-cased query `q`:
a name match appends and continues; otherwise a member match appends
and merely breaks the inner loop (no continue), after which the
location / concert-date / creation-year chain may append the artist a
second time. -/
def searchRow (q : Str) (a : Artist) : List Artist :=
  if goContains (goToLower a.Name) q then [a]
  else
    (if a.Members.any (fun m => goContains (goToLower m) q) then [a] else []) ++
    (if goContains (goToLower a.Locations) q then [a]
     else if goContains a.ConcertDates q then [a]
     else
       match atoi q with
       | some creationYear => if a.CreationDate = creationYear then [a] else []
       | none => [])

/-- The `searchArtists` loop over the artist list. -/
def searchArtistsLoop (q : Str) : List Artist → List Artist
  | [] => []
  | a :: rest => searchRow q a ++ searchArtistsLoop q rest

/-- `searchArtists` (handlers.go lines 198-236): lower-cases the query
once, then scans the list. -/
def searchArtists (artists : List Artist) (query : Str) : List Artist :=
  searchArtistsLoop (goToLower query) artists

/-- `ArtistsHandler` (handlers.go lines 157-197): path check, method
check, fetch of the artist list, then either a JSON search response
(non-empty `q` parameter) or the rendered artists page. -/
def ArtistsHandler (up : Upstream) (r : Request) : Response × List Fetch :=
  if r.path ≠ sArtists ∧ r.path ≠ sArtistsSlash then
    (.errorPage 404 sPageUnavailable, [])
  else if r.method ≠ sGET then (.errorPage 405 sWrongMethod, [])
  else
    match up.ReadArtists with
    | none => (.errorPage 500 sErrFetchingArtists, [.artists])
    | some result =>
      if getQuery r sQ ≠ [] then
        (.jsonArtists (searchArtists result (getQuery r sQ)), [.artists])
      else (.artistsPage result, [.artists])

/-- The fetch chain of `ArtistHandler` (handlers.go lines 274-321): the
artist fetch (404 on error or zero `ID`), then dates, locations and
relations (500 on error), finally the combined `ArtistData` handed to
the artist template; `CreationDate` and `ConcertDates` stay at their Go
zero values. -/
def fetchPhase (up : Upstream) (id sectionParam : Str) : Response × List Fetch :=
  match up.ReadArtist id with
  | none => (.errorPage 404 sPageUnavailable, [.artist id])
  | some artistResult =>
    if artistResult.ID = 0 then (.errorPage 404 sPageUnavailable, [.artist id])
    else
      match up.ReadDate id with
      | none => (.errorPage 500 sErrFetchingDates, [.artist id, .dates id])
      | some datesResult =>
        match up.ReadLocation id with
        | none =>
          (.errorPage 500 sErrFetchingLocations,
           [.artist id, .dates id, .locations id])
        | some locationsResult =>
          match up.ReadRelations id with
          | none =>
            (.errorPage 500 sErrFetchingRelations,
             [.artist id, .dates id, .locations id, .relations id])
          | some relationsResult =>
            (.artistPage
              { Artist := artistResult, Dates := datesResult,
                Locations := locationsResult, Relations := relationsResult,
                Section := sectionParam, CreationDate := 0, ConcertDates := [] },
             [.artist id, .dates id, .locations id, .relations id])

/-- The artist id taken from the path: last segment of the `"/"` split
(`id1[len(id1)-1]`, handlers.go line 265). -/
def pathId (r : Request) : Str := (goSplit '/' r.path).getLastD []

/-- `ArtistHandler` (handlers.go lines 248-321): method check, path
shape check (prefix `"/artist/"` and exactly three `"/"` segments), the
re-split length guard (the 400 branch), the `section` parameter
validation, then the fetch chain. -/
def ArtistHandler (up : Upstream) (r : Request) : Response × List Fetch :=
  if r.method ≠ sGET then (.errorPage 405 sWrongMethod, [])
  else if ¬ goHasPrefixB sArtistSlash r.path = true ∨
      (goSplit '/' r.path).length ≠ 3 then
    (.errorPage 404 sPageUnavailable, [])
  else if (goSplit '/' r.path).length < 3 then
    (.errorPage 400 sArtistIdNotFound, [])
  else if getQuery r sSection ≠ [] ∧ getQuery r sSection ≠ sLocations ∧
      getQuery r sSection ≠ sDates ∧ getQuery r sSection ≠ sRelations ∧
      getQuery r sSection ≠ sAll then
    (.errorPage 404 sSectionUnavailable, [])
  else fetchPhase up (pathId r) (getQuery r sSection)

/-! ### Specification-side definitions

These restate, in the words of the specification claims, what the search
functions are claimed to return; the theorems below compare them with
the source-derived functions. -/

/-- Claim-side predicate: the artist's name contains the (lower-cased)
query, case-insensitively. -/
def nameMatches (a : Artist) (q : Str) : Bool := goContains (goToLower a.Name) q

/-- Claim-side predicate: some member contains the (lower-cased) query,
case-insensitively. -/
def memberMatches (a : Artist) (q : Str) : Bool :=
  a.Members.any (fun m => goContains (goToLower m) q)

/-- Claim-side predicate for the checks that follow the member loop:
`Locations` contains the query case-insensitively, `ConcertDates`
contains the lower-cased query as a substring, or the query parses as an
integer equal to `CreationDate`. -/
def laterMatches (a : Artist) (q : Str) : Bool :=
  goContains (goToLower a.Locations) q || goContains a.ConcertDates q ||
    (match atoi q with
     | some creationYear => a.CreationDate == creationYear
     | none => false)

/-- Claim-side (amended) contribution of one artist to the search
result: one copy on a name match; otherwise two copies when both the
member check and one of the later checks match (the member branch breaks
without continuing), one copy when exactly one of them matches, and none
otherwise. -/
def searchRowSpec (q : Str) (a : Artist) : List Artist :=
  if nameMatches a q then [a]
  else if memberMatches a q && laterMatches a q then [a, a]
  else if memberMatches a q || laterMatches a q then [a]
  else []

/-- Claim-side contribution of one artist to the `SearchHandler`
response: a "first album date" hit when the lower-cased `FirstAlbum`
contains the lower-cased query, then a "creation date" hit when the
decimal rendering of `CreationDate` contains it. -/
def searchResultRowSpec (lowerQuery : Str) (a : Artist) : List SearchResult :=
  (if goContains (goToLower a.FirstAlbum) lowerQuery then
    [{ Name := a.Name, type := sFirstAlbumDate }] else []) ++
  (if goContains (itoa a.CreationDate) lowerQuery then
    [{ Name := a.Name, type := sCreationDate }] else [])

/-! ### Concrete fixtures used by witnesses and counterexamples -/

/-- An artist whose name misses the query `"bob"` but whose member list
and `Locations` both match it. -/
def cexA1 : Artist :=
  { ID := 1, Name := "x".data, Members := ["bob".data],
    CreationDate := 0, FirstAlbum := [], Locations := "bobville".data,
    ConcertDates := [] }

/-- An artist whose `ConcertDates` contains `"May"` verbatim but not the
lower-cased `"may"`, and which matches no other check. -/
def cexA2 : Artist :=
  { ID := 1, Name := "x".data, Members := [],
    CreationDate := 0, FirstAlbum := [], Locations := "z".data,
    ConcertDates := "May-1999".data }

def qBob : Str := "bob".data

def qMay : Str := "May".data

/-- A successful-upstream fixture. -/
def a0 : Artist :=
  { ID := 1, Name := "queen".data, Members := ["freddie".data],
    CreationDate := 1970, FirstAlbum := "1973-07-13".data,
    Locations := "london".data, ConcertDates := "1973-07".data }

def d0 : DateEntry := { raw := "1973".data }

def l0 : Location := { raw := "london".data }

def rel0 : Relation := { raw := "london-1973".data }

/-- Upstream on which every fetch succeeds. -/
def up0 : Upstream :=
  { ReadArtists := some [a0], ReadArtist := fun _ => some a0,
    ReadDate := fun _ => some d0, ReadLocation := fun _ => some l0,
    ReadRelations := fun _ => some rel0 }

/-- Upstream whose artist fetch fails. -/
def upFailArtist : Upstream := { up0 with ReadArtist := fun _ => none }

/-- A well-formed GET request for artist 5, no query parameters. -/
def req1 : Request := { method := sGET, path := "/artist/5".data, query := [] }

/-- The same request with an invalid `section` parameter. -/
def req2 : Request :=
  { method := sGET, path := "/artist/5".data,
    query := [(sSection, "zzz".data)] }

/-- A GET request whose path fits neither `ArtistHandler` (wrong prefix)
nor `ArtistsHandler` (not `/artists` or `/artists/`). -/
def reqBadPath : Request :=
  { method := sGET, path := "/artists/x".data, query := [] }

/-- A POST request for a path other than `/`. -/
def reqPostX : Request :=
  { method := "POST".data, path := "/x".data, query := [] }

/-- A GET search request with query `"19"`. -/
def reqSearch : Request :=
  { method := sGET, path := "/search".data,
    query := [(sQueryKey, "19".data)] }

/-- A GET search request without a query parameter. -/
def reqSearchEmpty : Request :=
  { method := sGET, path := "/search".data, query := [] }

/-! ### Helper lemmas -/

/-- One loop iteration of `searchArtists` agrees with the claim-side
per-artist contribution. -/
theorem searchRow_eq_rowSpec (q : Str) (a : Artist) :
    searchRow q a = searchRowSpec q a := by
  unfold searchRow searchRowSpec nameMatches memberMatches laterMatches
  cases hn : goContains (goToLower a.Name) q <;>
    cases hm : a.Members.any (fun m => goContains (goToLower m) q) <;>
    cases hl : goContains (goToLower a.Locations) q <;>
    cases hc : goContains a.ConcertDates q <;>
    rcases hA : atoi q with _ | y <;>
    simp [hn, hm, hl, hc, hA]
  all_goals by_cases hcd : a.CreationDate = y <;> simp [hcd]

/-- The `searchArtists` loop distributes over list concatenation. -/
theorem searchArtistsLoop_append (q : Str) (xs ys : List Artist) :
    searchArtistsLoop q (xs ++ ys) =
      searchArtistsLoop q xs ++ searchArtistsLoop q ys := by
  induction xs with
  | nil => simp [searchArtistsLoop]
  | cons a rest ih => simp [searchArtistsLoop, ih]

/-- The `SearchHandler` accumulation is the ordered concatenation of the
per-artist claim-side contributions. -/
theorem searchResultsLoop_eq_flatten (q : Str) (artists : List Artist) :
    searchResultsLoop q artists =
      (artists.map (searchResultRowSpec q)).flatten := by
  induction artists with
  | nil => simp [searchResultsLoop]
  | cons a rest ih =>
    simp [searchResultsLoop, searchResultRowSpec, ih]

/-- Whatever the upstream outcomes, the fetch chain's first request is
the artist fetch. -/
theorem fetchPhase_first_fetch (up : Upstream) (id s : Str) :
    (fetchPhase up id s).2.take 1 = [Fetch.artist id] := by
  unfold fetchPhase
  rcases up.ReadArtist id with _ | a
  · rfl
  · by_cases h : a.ID = 0 <;> simp only [h, if_true, if_false, if_pos, if_neg, not_false_iff]
    · rfl
    · rcases up.ReadDate id with _ | d
      · rfl
      · rcases up.ReadLocation id with _ | l
        · rfl
        · rcases up.ReadRelations id with _ | rel <;> rfl

/-- Statuses reachable through the fetch chain: 404 (artist fetch failed
or zero id), 500 (a later fetch failed), or the rendered page. -/
theorem fetchPhase_status (up : Upstream) (id s : Str) :
    respStatus (fetchPhase up id s).1 = 404 ∨
    respStatus (fetchPhase up id s).1 = 500 ∨
    respStatus (fetchPhase up id s).1 = 200 := by
  unfold fetchPhase
  rcases up.ReadArtist id with _ | a
  · exact Or.inl rfl
  · by_cases h0 : a.ID = 0
    · simp only [if_pos h0]
      exact Or.inl rfl
    · simp only [if_neg h0]
      rcases up.ReadDate id with _ | d
      · exact Or.inr (Or.inl rfl)
      rcases up.ReadLocation id with _ | l
      · exact Or.inr (Or.inl rfl)
      rcases up.ReadRelations id with _ | rel
      · exact Or.inr (Or.inl rfl)
      · exact Or.inr (Or.inr rfl)

/-- A GET request whose path passes the shape check and whose `section`
parameter passes validation reaches the fetch chain. -/
theorem artistHandler_reaches_fetch (up : Upstream) (r : Request)
    (hm : r.method = sGET)
    (hp : goHasPrefixB sArtistSlash r.path = true)
    (hl : (goSplit '/' r.path).length = 3)
    (hs : getQuery r sSection = [] ∨ getQuery r sSection = sLocations ∨
      getQuery r sSection = sDates ∨ getQuery r sSection = sRelations ∨
      getQuery r sSection = sAll) :
    ArtistHandler up r = fetchPhase up (pathId r) (getQuery r sSection) := by
  have h1 : ¬ (r.method ≠ sGET) := by simp [hm]
  have h2 : ¬ (¬ goHasPrefixB sArtistSlash r.path = true ∨
      (goSplit '/' r.path).length ≠ 3) := by simp [hp, hl]
  have h3 : ¬ ((goSplit '/' r.path).length < 3) := by omega
  have h4 : ¬ (getQuery r sSection ≠ [] ∧ getQuery r sSection ≠ sLocations ∧
      getQuery r sSection ≠ sDates ∧ getQuery r sSection ≠ sRelations ∧
      getQuery r sSection ≠ sAll) := by
    rcases hs with h | h | h | h | h <;> simp [h]
  simp only [ArtistHandler, if_neg h1, if_neg h2, if_neg h3, if_neg h4]

/-! ### The claims -/

/-- C10: `HomeHandler` validates the path before the method — a path
other than `/` yields the 404 page regardless of the method, and the
405 "Wrong method" page arises only for a non-GET request to `/`
(a GET request to `/` renders the home page). -/
theorem C10_home_path_before_method (r : Request) :
    (r.path ≠ sRoot → HomeHandler r = .errorPage 404 sHomeUnavailable) ∧
    (r.path = sRoot → r.method ≠ sGET →
      HomeHandler r = .errorPage 405 sWrongMethod) ∧
    (r.path = sRoot → r.method = sGET → HomeHandler r = .homePage) := by
  refine ⟨fun h => ?_, fun hp hm => ?_, fun hp hm => ?_⟩ <;>
    simp [HomeHandler, *]

theorem C10_witness : HomeHandler reqPostX = .errorPage 404 sHomeUnavailable :=
  (C10_home_path_before_method reqPostX).1 (by decide)

/-- C9: the 400 "Artist ID not found" branch of `ArtistHandler` is
unreachable — every response has status 200, 404, 405 or 500, so the
handler never responds with status 400.  (The guard `len(id1) < 3`
re-splits the same path whose split was already checked to have length
exactly 3.) -/
theorem C9_no_bad_request (up : Upstream) (r : Request) :
    respStatus (ArtistHandler up r).1 ∈ ([200, 404, 405, 500] : List Nat) := by
  unfold ArtistHandler
  split
  · simp [respStatus]
  · split
    · simp [respStatus]
    · next h2 =>
      split
      · next h3 =>
        exfalso
        rcases not_or.mp h2 with ⟨_, hlen⟩
        have h := not_ne_iff.mp hlen
        omega
      · split
        · simp [respStatus]
        · rcases fetchPhase_status up (pathId r) (getQuery r sSection) with
            h | h | h <;> simp [h]

/-- C6: a GET request whose path is malformed for its route gets the 404
page with no upstream request issued: for `ArtistHandler`, a path
without the `/artist/` prefix or without exactly three `/`-separated
segments; for `ArtistsHandler`, a path that is neither `/artists` nor
`/artists/`. -/
theorem C6_malformed_path (up : Upstream) (r : Request)
    (hm : r.method = sGET) :
    ((¬ goHasPrefixB sArtistSlash r.path = true ∨
      (goSplit '/' r.path).length ≠ 3) →
      ArtistHandler up r = (.errorPage 404 sPageUnavailable, [])) ∧
    (r.path ≠ sArtists → r.path ≠ sArtistsSlash →
      ArtistsHandler up r = (.errorPage 404 sPageUnavailable, [])) := by
  constructor
  · intro hbad
    have h1 : ¬ (r.method ≠ sGET) := by simp [hm]
    simp only [ArtistHandler, if_neg h1, if_pos hbad]
  · intro hA hAS
    simp only [ArtistsHandler, if_pos (And.intro hA hAS)]

theorem C6_witness :
    ArtistHandler up0 reqBadPath = (.errorPage 404 sPageUnavailable, []) ∧
    ArtistsHandler up0 reqBadPath = (.errorPage 404 sPageUnavailable, []) :=
  ⟨(C6_malformed_path up0 reqBadPath rfl).1 (Or.inl (by decide)),
   (C6_malformed_path up0 reqBadPath rfl).2 (by decide) (by decide)⟩

/-- C7: for a GET request whose path passes the shape check,
`ArtistHandler` renders the section 404 page and issues no upstream
request exactly when the `section` parameter is non-empty and not one of
`locations`, `dates`, `relations`, `all`; otherwise validation passes
and the handler proceeds to fetch (its first upstream request is the
artist fetch).  The two guards are complementary, so together the
implications give the "exactly when". -/
theorem C7_section_validation (up : Upstream) (r : Request)
    (hm : r.method = sGET)
    (hp : goHasPrefixB sArtistSlash r.path = true)
    (hl : (goSplit '/' r.path).length = 3) :
    ((getQuery r sSection ≠ [] ∧ getQuery r sSection ≠ sLocations ∧
      getQuery r sSection ≠ sDates ∧ getQuery r sSection ≠ sRelations ∧
      getQuery r sSection ≠ sAll) →
      ArtistHandler up r = (.errorPage 404 sSectionUnavailable, [])) ∧
    ((getQuery r sSection = [] ∨ getQuery r sSection = sLocations ∨
      getQuery r sSection = sDates ∨ getQuery r sSection = sRelations ∨
      getQuery r sSection = sAll) →
      (ArtistHandler up r).2.take 1 = [Fetch.artist (pathId r)]) := by
  constructor
  · intro hbad
    have h1 : ¬ (r.method ≠ sGET) := by simp [hm]
    have h2 : ¬ (¬ goHasPrefixB sArtistSlash r.path = true ∨
        (goSplit '/' r.path).length ≠ 3) := by simp [hp, hl]
    have h3 : ¬ ((goSplit '/' r.path).length < 3) := by omega
    simp only [ArtistHandler, if_neg h1, if_neg h2, if_neg h3, if_pos hbad]
  · intro hs
    rw [artistHandler_reaches_fetch up r hm hp hl hs]
    exact fetchPhase_first_fetch up (pathId r) (getQuery r sSection)

theorem C7_witness :
    ArtistHandler up0 req2 = (.errorPage 404 sSectionUnavailable, []) :=
  (C7_section_validation up0 req2 rfl (by decide) (by decide)).1
    ⟨by decide, by decide, by decide, by decide, by decide⟩

/-- C1: on a GET request whose path has the `/artist/` prefix and
exactly three `/`-separated segments, with a valid (or absent) `section`
parameter, when the artist fetch yields a nonzero-ID artist and the
dates, locations and relations fetches all succeed, `ArtistHandler`
combines the four results into one `ArtistData` (with `Section` the
section parameter and the two unset fields at their Go zero values) and
renders the artist template with exactly that value. -/
theorem C1_artist_aggregation (up : Upstream) (r : Request)
    (hm : r.method = sGET)
    (hp : goHasPrefixB sArtistSlash r.path = true)
    (hl : (goSplit '/' r.path).length = 3)
    (hs : getQuery r sSection = [] ∨ getQuery r sSection = sLocations ∨
      getQuery r sSection = sDates ∨ getQuery r sSection = sRelations ∨
      getQuery r sSection = sAll)
    (a : Artist) (d : DateEntry) (l : Location) (rel : Relation)
    (ha : up.ReadArtist (pathId r) = some a) (haid : a.ID ≠ 0)
    (hd : up.ReadDate (pathId r) = some d)
    (hloc : up.ReadLocation (pathId r) = some l)
    (hrel : up.ReadRelations (pathId r) = some rel) :
    ArtistHandler up r =
      (.artistPage
        { Artist := a, Dates := d, Locations := l, Relations := rel,
          Section := getQuery r sSection, CreationDate := 0,
          ConcertDates := [] },
       [.artist (pathId r), .dates (pathId r), .locations (pathId r),
        .relations (pathId r)]) := by
  rw [artistHandler_reaches_fetch up r hm hp hl hs]
  simp [fetchPhase, ha, haid, hd, hloc, hrel]

theorem C1_witness :
    ArtistHandler up0 req1 =
      (.artistPage
        { Artist := a0, Dates := d0, Locations := l0, Relations := rel0,
          Section := getQuery req1 sSection, CreationDate := 0,
          ConcertDates := [] },
       [.artist (pathId req1), .dates (pathId req1), .locations (pathId req1),
        .relations (pathId req1)]) :=
  C1_artist_aggregation up0 req1 rfl (by decide) (by decide) (Or.inl rfl)
    a0 d0 l0 rel0 rfl (by decide) rfl rfl rfl

/-- C3: when an upstream fetch fails during a validated artist-detail
request, `ArtistHandler` renders one error page and stops: a failed
artist fetch, or a fetched artist with ID 0, yields the 404 page after
only the artist fetch; a failed dates, locations or relations fetch
yields the 500 page of that stage, the trace ending at the failed fetch
(no retry, no further upstream request). -/
theorem C3_fail_fast (up : Upstream) (r : Request)
    (hm : r.method = sGET)
    (hp : goHasPrefixB sArtistSlash r.path = true)
    (hl : (goSplit '/' r.path).length = 3)
    (hs : getQuery r sSection = [] ∨ getQuery r sSection = sLocations ∨
      getQuery r sSection = sDates ∨ getQuery r sSection = sRelations ∨
      getQuery r sSection = sAll) :
    (up.ReadArtist (pathId r) = none →
      ArtistHandler up r =
        (.errorPage 404 sPageUnavailable, [.artist (pathId r)])) ∧
    (∀ a, up.ReadArtist (pathId r) = some a → a.ID = 0 →
      ArtistHandler up r =
        (.errorPage 404 sPageUnavailable, [.artist (pathId r)])) ∧
    (∀ a, up.ReadArtist (pathId r) = some a → a.ID ≠ 0 →
      up.ReadDate (pathId r) = none →
      ArtistHandler up r =
        (.errorPage 500 sErrFetchingDates,
         [.artist (pathId r), .dates (pathId r)])) ∧
    (∀ a d, up.ReadArtist (pathId r) = some a → a.ID ≠ 0 →
      up.ReadDate (pathId r) = some d → up.ReadLocation (pathId r) = none →
      ArtistHandler up r =
        (.errorPage 500 sErrFetchingLocations,
         [.artist (pathId r), .dates (pathId r), .locations (pathId r)])) ∧
    (∀ a d l, up.ReadArtist (pathId r) = some a → a.ID ≠ 0 →
      up.ReadDate (pathId r) = some d → up.ReadLocation (pathId r) = some l →
      up.ReadRelations (pathId r) = none →
      ArtistHandler up r =
        (.errorPage 500 sErrFetchingRelations,
         [.artist (pathId r), .dates (pathId r), .locations (pathId r),
          .relations (pathId r)])) := by
  rw [artistHandler_reaches_fetch up r hm hp hl hs]
  refine ⟨fun h => ?_, fun a ha h0 => ?_, fun a ha h0 hd => ?_,
    fun a d ha h0 hd hl2 => ?_, fun a d l ha h0 hd hl2 hr => ?_⟩ <;>
    simp [fetchPhase, *]

theorem C3_witness :
    ArtistHandler upFailArtist req1 =
      (.errorPage 404 sPageUnavailable, [.artist (pathId req1)]) :=
  (C3_fail_fast upFailArtist req1 rfl (by decide) (by decide)
    (Or.inl rfl)).1 rfl

/-- C5: on any request, `ArtistHandler` issues at most four upstream
requests, in the fixed order artist, dates, locations, relations; the
trace is a prefix of that sequence, and each later fetch appears only
when every earlier fetch succeeded (the artist fetch with a nonzero
ID). -/
theorem C5_sequential_fetch_discipline (up : Upstream) (r : Request) :
    (ArtistHandler up r).2 = [] ∨
    (ArtistHandler up r).2 = [Fetch.artist (pathId r)] ∨
    ((ArtistHandler up r).2 =
        [Fetch.artist (pathId r), Fetch.dates (pathId r)] ∧
      ∃ a, up.ReadArtist (pathId r) = some a ∧ a.ID ≠ 0) ∨
    ((ArtistHandler up r).2 =
        [Fetch.artist (pathId r), Fetch.dates (pathId r),
         Fetch.locations (pathId r)] ∧
      (∃ a, up.ReadArtist (pathId r) = some a ∧ a.ID ≠ 0) ∧
      ∃ d, up.ReadDate (pathId r) = some d) ∨
    ((ArtistHandler up r).2 =
        [Fetch.artist (pathId r), Fetch.dates (pathId r),
         Fetch.locations (pathId r), Fetch.relations (pathId r)] ∧
      (∃ a, up.ReadArtist (pathId r) = some a ∧ a.ID ≠ 0) ∧
      (∃ d, up.ReadDate (pathId r) = some d) ∧
      ∃ l, up.ReadLocation (pathId r) = some l) := by
  unfold ArtistHandler
  split
  · exact Or.inl rfl
  split
  · exact Or.inl rfl
  split
  · exact Or.inl rfl
  split
  · exact Or.inl rfl
  unfold fetchPhase
  rcases hA : up.ReadArtist (pathId r) with _ | a
  · exact Or.inr (Or.inl rfl)
  dsimp only
  by_cases h0 : a.ID = 0
  · rw [if_pos h0]
    exact Or.inr (Or.inl rfl)
  rw [if_neg h0]
  rcases hD : up.ReadDate (pathId r) with _ | d
  · exact Or.inr (Or.inr (Or.inl ⟨rfl, a, rfl, h0⟩))
  rcases hL : up.ReadLocation (pathId r) with _ | l
  · exact Or.inr (Or.inr (Or.inr (Or.inl ⟨rfl, ⟨a, rfl, h0⟩, d, rfl⟩)))
  rcases hR : up.ReadRelations (pathId r) with _ | rel
  · exact Or.inr (Or.inr (Or.inr (Or.inr
      ⟨rfl, ⟨a, rfl, h0⟩, ⟨d, rfl⟩, l, rfl⟩)))
  · exact Or.inr (Or.inr (Or.inr (Or.inr
      ⟨rfl, ⟨a, rfl, h0⟩, ⟨d, rfl⟩, l, rfl⟩)))

/-- C2 (counterexample to the claim as stated): `searchArtists` does not
return each matching artist at most once — on `cexA1` with query `bob`
the artist is returned twice (member match followed by location match);
and the `ConcertDates` check uses the lower-cased query, so `cexA2`,
whose `ConcertDates` contains the query `May` verbatim (but not `may`),
is not returned at all although the claim's disjunction holds for it. -/
theorem C2_counterexample :
    searchArtists [cexA1] qBob = [cexA1, cexA1] ∧
    searchArtists [cexA2] qMay = [] := by
  constructor
  · decide
  · decide

/-- C2 (amended): `searchArtists` returns, in input order, the artists
for which the name check, the member check, or one of the later checks
(`Locations` case-insensitively, `ConcertDates` against the lower-cased
query, or `CreationDate` equal to the parsed query) succeeds — each such
artist once, except that an artist whose name does not match but whose
member check and one of the later checks both match appears exactly
twice. -/
theorem C2_search_scan (artists : List Artist) (query : Str) :
    searchArtists artists query =
      (artists.map (searchRowSpec (goToLower query))).flatten := by
  unfold searchArtists
  induction artists with
  | nil => rfl
  | cons a rest ih => simp [searchArtistsLoop, searchRow_eq_rowSpec, ih]

/-- C8: whenever an artist's name does not contain the query but a
member does, and one of the later checks (locations, concert dates,
creation year) also matches, the artist is appended twice in a row —
once by the member branch (which breaks without continuing) and once by
the later chain. -/
theorem C8_member_then_later_duplicates (pre post : List Artist)
    (a : Artist) (q : Str)
    (hn : nameMatches a (goToLower q) = false)
    (hmem : memberMatches a (goToLower q) = true)
    (hlater : laterMatches a (goToLower q) = true) :
    searchArtists (pre ++ a :: post) q =
      searchArtists pre q ++ [a, a] ++ searchArtists post q := by
  unfold searchArtists
  rw [searchArtistsLoop_append]
  have hrow : searchRow (goToLower q) a = [a, a] := by
    rw [searchRow_eq_rowSpec]
    unfold searchRowSpec
    simp [hn, hmem, hlater]
  simp [searchArtistsLoop, hrow]

theorem C8_witness :
    nameMatches cexA1 (goToLower qBob) = false ∧
    memberMatches cexA1 (goToLower qBob) = true ∧
    laterMatches cexA1 (goToLower qBob) = true ∧
    searchArtists ([] ++ cexA1 :: []) qBob =
      searchArtists [] qBob ++ [cexA1, cexA1] ++ searchArtists [] qBob :=
  ⟨by decide, by decide, by decide,
   C8_member_then_later_duplicates [] [] cexA1 qBob
     (by decide) (by decide) (by decide)⟩

/-- C4: on a GET request with a non-empty `query` parameter, when the
artist-list fetch succeeds, `SearchHandler` responds with the JSON
encoding (modelled by `Response.jsonSearch`, which carries the
`application/json` content type) of, in input order, a "first album
date" hit for each artist whose `FirstAlbum` contains the lower-cased
query case-insensitively and a "creation date" hit for each artist whose
decimal `CreationDate` contains it; with a missing or empty `query`
parameter it renders the 400 page and fetches nothing. -/
theorem C4_search_handler (up : Upstream) (r : Request)
    (artists : List Artist) (hm : r.method = sGET) :
    (getQuery r sQueryKey ≠ [] → up.ReadArtists = some artists →
      SearchHandler up r =
        (.jsonSearch ((artists.map
            (searchResultRowSpec (goToLower (getQuery r sQueryKey)))).flatten),
         [.artists])) ∧
    (getQuery r sQueryKey = [] →
      SearchHandler up r = (.errorPage 400 sQueryMissing, [])) := by
  have h1 : ¬ (r.method ≠ sGET) := by simp [hm]
  constructor
  · intro hq hup
    simp only [SearchHandler, if_neg h1, if_neg hq, hup,
      searchResultsLoop_eq_flatten]
  · intro hq
    simp only [SearchHandler, if_neg h1, if_pos hq]

theorem C4_witness :
    SearchHandler up0 reqSearch =
      (.jsonSearch ((([a0]).map
          (searchResultRowSpec (goToLower (getQuery reqSearch sQueryKey)))).flatten),
       [.artists]) ∧
    SearchHandler up0 reqSearchEmpty = (.errorPage 400 sQueryMissing, []) :=
  ⟨(C4_search_handler up0 reqSearch [a0] rfl).1 (by decide) rfl,
   (C4_search_handler up0 reqSearchEmpty [a0] rfl).2 rfl⟩
